import Mathlib

/-!
Onroad settings panel (selfdrive/ui/qt/onroad_settings.cc)

A shallow embedding of the click handlers, of `OnroadSettings::refresh` and of the
three `OptionWidget::update...` entry points, followed by the properties proved
about them.

Conventions of the embedding:

* the C++ `int` fields of the scene are `Int`s; `++` and `--` reduce the result to
  32 bits two's complement (`wrapInt32`). Signed overflow is undefined in C++, and
  no statement below relies on what happens there;
* a `std::string` is a `String`; only ASCII white space and ASCII digits are
  inspected by the code, so the encoding of other characters plays no role;
* the parameter store is a total map from keys to values, a missing key reading
  as the empty string;
* Qt widgets are records of the display properties the code sets.
-/

namespace OnroadSettings

/-! ## Machine integers and the C library -/

/-- Reduction of an integer to the range of a 32 bit two's complement `int`. -/
def wrapInt32 (x : Int) : Int := (x + 2147483648) % 4294967296 - 2147483648

/-- Saturation of an integer to the range of a 64 bit `long`, as `strtol` does. -/
def clampLong (x : Int) : Int :=
  if x > 9223372036854775807 then 9223372036854775807
  else if x < -9223372036854775808 then -9223372036854775808
  else x

/-- The C `isspace` in the "C" locale: space, and the controls `\t \n \v \f \r`. -/
def isspace (c : Char) : Bool := c.toNat == 32 || (9 ≤ c.toNat && c.toNat ≤ 13)

/-- The C `isdigit`. -/
def isdigit (c : Char) : Bool := 48 ≤ c.toNat && c.toNat ≤ 57

/-- The value of the longest run of decimal digits at the head of `cs`, continuing
from the accumulator `acc`. -/
def digitsValue : Nat → List Char → Nat
  | acc, [] => acc
  | acc, c :: cs => if isdigit c then digitsValue (acc * 10 + (c.toNat - 48)) cs else acc

/-- The signed value `strtol(_, NULL, 10)` reads once white space has been skipped:
one optional sign, then the longest run of digits (0 when there is none). -/
def signedValue : List Char → Int
  | [] => 0
  | c :: cs =>
    if c = '-' then -((digitsValue 0 cs : Nat) : Int)
    else if c = '+' then ((digitsValue 0 cs : Nat) : Int)
    else ((digitsValue 0 (c :: cs) : Nat) : Int)

/-- The C `atoi`, that is `(int) strtol(s, NULL, 10)`: leading white space is skipped,
the value is saturated to a `long` and converted to `int`. -/
def atoi (s : String) : Int :=
  wrapInt32 (clampLong (signedValue (s.data.dropWhile isspace)))

/-- The C++ `std::to_string(int)`: the decimal digits, after a minus sign for a
negative value. -/
def to_string (v : Int) : String :=
  if v < 0 then "-" ++ Nat.repr v.natAbs else Nat.repr v.natAbs

/-! ## The parameter store -/

/-- The persistent key-value store: every key has a value, the empty string when the
key is missing. -/
abbrev Params := String → String

namespace Params

/-- Modelled from the spec: `Params::get` of common/params, which is not part of this
file; it returns the stored string, empty for a missing key. -/
def get (p : Params) (key : String) : String := p key

/-- Modelled from the spec: `Params::put` of common/params, which is not part of this
file; it replaces the value of one key and leaves every other key alone. -/
def put (p : Params) (key value : String) : Params :=
  fun k => if k = key then value else p k

/-- Modelled from the spec: `Params::getBool` of common/params, which is not part of
this file; a boolean parameter is true exactly when its stored string is "1". -/
def getBool (p : Params) (key : String) : Bool := p.get key == "1"

/-- Modelled from the spec: `Params::putBool` of common/params, which is not part of
this file; true is stored as "1" and false as "0". -/
def putBool (p : Params) (key : String) (val : Bool) : Params :=
  p.put key (if val then "1" else "0")

end Params

/-! ## State -/

/-- Modelled from the spec: the fields of `UIScene` the panel uses, two `int` option
values and two `bool` flags; the structure is declared in ui.h, outside this file. -/
structure UIScene where
  dynamic_lane_profile : Int
  dynamic_lane_profile_toggle : Bool
  longitudinal_personality : Int
  speed_limit_control_enabled : Bool
  deriving DecidableEq

/-- The display properties of one `OptionWidget`, as its constructor and its update
methods set them: the colour put in the style sheet of the `icon` label, the texts of
the `title` and `subtitle` labels, and the visibility flags. -/
structure OptionWidget where
  icon_color : String
  title : String
  subtitle : String
  subtitle_visible : Bool
  visible : Bool
  deriving DecidableEq

/-- The panel together with the global state its methods reach. -/
structure Panel where
  /-- The scene of `uiState()`. -/
  scene : UIScene
  /-- Modelled from the spec: the value of `hasLongitudinalControl(cp)` for the current
  car parameters; the helper is declared outside this file. -/
  has_longitudinal_control : Bool
  /-- The parameter store. -/
  params : Params
  /-- Modelled from the spec: the keys registered with the `ParamWatcher`, which is
  declared outside this file. -/
  watched : List String
  /-- The value of `isVisible()` of the panel. -/
  is_visible : Bool
  /-- The flag set by `setUpdatesEnabled`. -/
  updates_enabled : Bool
  dlp_widget : OptionWidget
  gac_widget : OptionWidget
  slc_widget : OptionWidget

/-- Modelled from the spec: `ParamWatcher::addParam`, declared outside this file;
registering a key twice is the same as registering it once. -/
def addParam (watched : List String) (key : String) : List String :=
  if key ∈ watched then watched else watched ++ [key]

/-! ## Option rows -/

namespace OptionWidget

/-- The method `OptionWidget::updateDynamicLaneProfile`. -/
def updateDynamicLaneProfile (w : OptionWidget) (params : Params) (param : String) :
    OptionWidget :=
  let icon_color := "#3B4356"
  let title_text := ""
  let subtitle_text := "Dynamic Lane Profile"
  let dlp := atoi (params.get param)
  let (title_text, icon_color) :=
    if dlp = 0 then ("Laneful", "#2020f8")
    else if dlp = 1 then ("Laneless", "#0df87a")
    else if dlp = 2 then ("Auto", "#0df8f8")
    else (title_text, icon_color)
  { w with icon_color := icon_color, title := title_text, subtitle := subtitle_text,
           subtitle_visible := true }

/-- The method `OptionWidget::updateGapAdjustCruise`. -/
def updateGapAdjustCruise (w : OptionWidget) (params : Params) (param : String) :
    OptionWidget :=
  let icon_color := "#3B4356"
  let title_text := ""
  let subtitle_text := "Driving Personality"
  let lp := atoi (params.get param)
  let (title_text, icon_color) :=
    if lp = 0 then ("Maniac Gap", "#ff4b4b")
    else if lp = 1 then ("Aggressive Gap", "#fcff4b")
    else if lp = 2 then ("Stock Gap", "#4bff66")
    else if lp = 3 then ("Relax Gap", "#6a0ac9")
    else (title_text, icon_color)
  { w with icon_color := icon_color, title := title_text, subtitle := subtitle_text,
           subtitle_visible := true }

/-- The method `OptionWidget::updateSpeedLimitControl`. -/
def updateSpeedLimitControl (w : OptionWidget) (params : Params) (param : String) :
    OptionWidget :=
  let icon_color := "#3B4356"
  let title_text := ""
  let subtitle_text := "Speed Limit Conrol"
  let speed_limit_control := atoi (params.get param)
  let (title_text, icon_color) :=
    if speed_limit_control = 0 then ("Disabled", "#3B4356")
    else if speed_limit_control = 1 then ("Enabled", "#0df87a")
    else (title_text, icon_color)
  { w with icon_color := icon_color, title := title_text, subtitle := subtitle_text,
           subtitle_visible := true }

/-- The method `QWidget::setVisible`. -/
def setVisible (w : OptionWidget) (v : Bool) : OptionWidget := { w with visible := v }

end OptionWidget

/-! ## The panel -/

/-- The method `OnroadSettings::refresh`. -/
def refresh (s : Panel) : Panel :=
  let s := { s with watched := addParam s.watched "DynamicLaneProfile" }
  let s := { s with watched := addParam s.watched "DynamicLaneProfileToggle" }
  let s := { s with watched := addParam s.watched "LongitudinalPersonality" }
  let s := { s with watched := addParam s.watched "SpeedLimitControl" }
  if !s.is_visible then s
  else
    let s := { s with updates_enabled := false }
    let cp := s.has_longitudinal_control
    let s := { s with dlp_widget := s.dlp_widget.updateDynamicLaneProfile s.params "DynamicLaneProfile" }
    let s := { s with dlp_widget := s.dlp_widget.setVisible (s.params.getBool "DynamicLaneProfileToggle") }
    let s := { s with gac_widget := s.gac_widget.updateGapAdjustCruise s.params "LongitudinalPersonality" }
    let s := { s with gac_widget := s.gac_widget.setVisible cp }
    let s := { s with slc_widget := s.slc_widget.updateSpeedLimitControl s.params "SpeedLimitControl" }
    let s := { s with slc_widget := s.slc_widget.setVisible true }
    { s with updates_enabled := true }

/-- The slot `OnroadSettings::changeDynamicLaneProfile`. -/
def changeDynamicLaneProfile (s : Panel) : Panel :=
  let can_change := s.scene.dynamic_lane_profile_toggle
  let s :=
    if can_change then
      let v := wrapInt32 (s.scene.dynamic_lane_profile + 1)
      let v := if v > 2 then 0 else v
      { s with scene := { s.scene with dynamic_lane_profile := v },
               params := s.params.put "DynamicLaneProfile" (to_string v) }
    else s
  refresh s

/-- The slot `OnroadSettings::changeGapAdjustCruise`. -/
def changeGapAdjustCruise (s : Panel) : Panel :=
  let can_change := s.has_longitudinal_control
  let s :=
    if can_change then
      let v := wrapInt32 (s.scene.longitudinal_personality - 1)
      let v := if v < 0 then 3 else v
      { s with scene := { s.scene with longitudinal_personality := v },
               params := s.params.put "LongitudinalPersonality" (to_string v) }
    else s
  refresh s

/-- The slot `OnroadSettings::changeSpeedLimitControl`. -/
def changeSpeedLimitControl (s : Panel) : Panel :=
  let can_change := true
  let s :=
    if can_change then
      let b := !s.scene.speed_limit_control_enabled
      { s with scene := { s.scene with speed_limit_control_enabled := b },
               params := s.params.putBool "SpeedLimitControl" b }
    else s
  refresh s

/-! ## The display tables of the specification -/

/-- The lane-profile table as the specification words it: value, title, icon colour. -/
def laneProfileTable : List (Int × String × String) :=
  [(0, "Laneful", "#2020f8"), (1, "Laneless", "#0df87a"), (2, "Auto", "#0df8f8")]

/-- The gap table as the specification words it: value, title, icon colour. -/
def gapTable : List (Int × String × String) :=
  [(0, "Maniac Gap", "#ff4b4b"), (1, "Aggressive Gap", "#fcff4b"),
   (2, "Stock Gap", "#4bff66"), (3, "Relax Gap", "#6a0ac9")]

/-- The entry of a value in a display table, as the specification words it: the listed
title and colour, and the empty title with the neutral colour for an unlisted value. -/
def tableEntry (table : List (Int × String × String)) (v : Int) : String × String :=
  (table.lookup v).getD ("", "#3B4356")

/-- A panel before its first refresh: blank rows, nothing watched. -/
def blankWidget : OptionWidget :=
  { icon_color := "#3B4356", title := "", subtitle := "", subtitle_visible := true,
    visible := true }

/-- A concrete panel state used to exercise the definitions. -/
def samplePanel (dlp lp : Int) (toggle long_ctl slc shown : Bool) (store : Params) : Panel :=
  { scene := { dynamic_lane_profile := dlp, dynamic_lane_profile_toggle := toggle,
               longitudinal_personality := lp, speed_limit_control_enabled := slc },
    has_longitudinal_control := long_ctl, params := store, watched := [],
    is_visible := shown, updates_enabled := true,
    dlp_widget := blankWidget, gac_widget := blankWidget, slc_widget := blankWidget }

/-- The empty store: every key missing. -/
def emptyStore : Params := fun _ => ""

/-! ## Auxiliary facts -/

theorem wrapInt32_of_range (x : Int) (hlo : -2147483648 ≤ x) (hhi : x < 2147483648) :
    wrapInt32 x = x := by
  unfold wrapInt32
  omega

theorem refresh_scene (s : Panel) : (refresh s).scene = s.scene := by
  unfold refresh
  cases h : s.is_visible <;> simp [h]

theorem refresh_params (s : Panel) : (refresh s).params = s.params := by
  unfold refresh
  cases h : s.is_visible <;> simp [h]

theorem refresh_has_longitudinal_control (s : Panel) :
    (refresh s).has_longitudinal_control = s.has_longitudinal_control := by
  unfold refresh
  cases h : s.is_visible <;> simp [h]

theorem refresh_is_visible (s : Panel) : (refresh s).is_visible = s.is_visible := by
  unfold refresh
  cases h : s.is_visible <;> simp [h]

theorem mem_addParam_self (w : List String) (k : String) : k ∈ addParam w k := by
  unfold addParam
  split <;> simp_all

theorem mem_addParam_of_mem (w : List String) (k j : String) (h : k ∈ w) :
    k ∈ addParam w j := by
  unfold addParam
  split <;> simp_all

theorem addParam_of_mem (w : List String) (k : String) (h : k ∈ w) : addParam w k = w := by
  unfold addParam
  simp [h]

theorem addParam_four_idem (w : List String) (a b c d : String) :
    addParam (addParam (addParam (addParam
        (addParam (addParam (addParam (addParam w a) b) c) d) a) b) c) d
      = addParam (addParam (addParam (addParam w a) b) c) d := by
  have ha : a ∈ addParam (addParam (addParam (addParam w a) b) c) d :=
    mem_addParam_of_mem _ _ _ (mem_addParam_of_mem _ _ _
      (mem_addParam_of_mem _ _ _ (mem_addParam_self _ _)))
  have hb : b ∈ addParam (addParam (addParam (addParam w a) b) c) d :=
    mem_addParam_of_mem _ _ _ (mem_addParam_of_mem _ _ _ (mem_addParam_self _ _))
  have hc : c ∈ addParam (addParam (addParam (addParam w a) b) c) d :=
    mem_addParam_of_mem _ _ _ (mem_addParam_self _ _)
  have hd : d ∈ addParam (addParam (addParam (addParam w a) b) c) d :=
    mem_addParam_self _ _
  rw [addParam_of_mem _ a ha, addParam_of_mem _ b hb, addParam_of_mem _ c hc,
    addParam_of_mem _ d hd]

theorem digitChar_isdigit (d : Nat) (h : d < 10) :
    isdigit (Nat.digitChar d) = true ∧ (Nat.digitChar d).toNat - 48 = d := by
  interval_cases d <;> decide

theorem toDigitsCore_acc (fuel : Nat) : ∀ (n : Nat) (ds : List Char),
    Nat.toDigitsCore 10 fuel n ds = Nat.toDigitsCore 10 fuel n [] ++ ds := by
  induction fuel with
  | zero => intro n ds; simp [Nat.toDigitsCore]
  | succ f ih =>
    intro n ds
    simp only [Nat.toDigitsCore]
    split
    · simp
    · rw [ih (n / 10) (Nat.digitChar (n % 10) :: ds), ih (n / 10) [Nat.digitChar (n % 10)]]
      simp

theorem digitsValue_append (l : List Char) : ∀ (acc : Nat) (r : List Char),
    (∀ c ∈ l, isdigit c = true) →
    digitsValue acc (l ++ r) = digitsValue (digitsValue acc l) r := by
  induction l with
  | nil => intro acc r _; simp [digitsValue]
  | cons c cs ih =>
    intro acc r h
    have hc : isdigit c = true := h c (List.mem_cons_self _ _)
    simp only [List.cons_append, digitsValue, hc, if_true]
    exact ih _ _ (fun x hx => h x (List.mem_cons_of_mem _ hx))

theorem toDigitsCore_value (fuel : Nat) : ∀ n : Nat, n < fuel →
    (∀ c ∈ Nat.toDigitsCore 10 fuel n [], isdigit c = true)
      ∧ Nat.toDigitsCore 10 fuel n [] ≠ []
      ∧ digitsValue 0 (Nat.toDigitsCore 10 fuel n []) = n := by
  induction fuel with
  | zero => intro n h; omega
  | succ f ih =>
    intro n hn
    have hd := digitChar_isdigit (n % 10) (Nat.mod_lt _ (by decide))
    simp only [Nat.toDigitsCore]
    split
    · rename_i h0
      refine ⟨?_, by simp, ?_⟩
      · intro c hc
        simp only [List.mem_singleton] at hc
        rw [hc]; exact hd.1
      · simp only [digitsValue, hd.1, if_true, hd.2]
        omega
    · rename_i h0
      have hlt : n / 10 < f := by omega
      obtain ⟨hall, hne, hval⟩ := ih (n / 10) hlt
      rw [toDigitsCore_acc]
      refine ⟨?_, by simp, ?_⟩
      · intro c hc
        simp only [List.mem_append, List.mem_singleton] at hc
        rcases hc with hc | hc
        · exact hall c hc
        · rw [hc]; exact hd.1
      · rw [digitsValue_append _ _ _ hall, hval]
        simp only [digitsValue, hd.1, if_true, hd.2]
        omega

theorem isdigit_not_space (c : Char) (h : isdigit c = true) :
    isspace c = false ∧ c ≠ '-' ∧ c ≠ '+' := by
  refine ⟨?_, ?_, ?_⟩
  · simp only [isdigit, isspace, Bool.and_eq_true, decide_eq_true_eq] at h ⊢
    simp only [Bool.or_eq_false_iff, beq_eq_false_iff_ne, ne_eq, Bool.and_eq_false_imp,
      decide_eq_true_eq, decide_eq_false_iff_not]
    omega
  · rintro rfl; revert h; decide
  · rintro rfl; revert h; decide

theorem atoi_repr (n : Nat) :
    signedValue ((Nat.repr n).data.dropWhile isspace) = (n : Int)
    ∧ signedValue (("-" ++ Nat.repr n).data.dropWhile isspace) = -(n : Int) := by
  obtain ⟨hall, hne, hval⟩ := toDigitsCore_value (n + 1) n (Nat.lt_succ_self n)
  have hdata : (Nat.repr n).data = Nat.toDigitsCore 10 (n + 1) n [] := rfl
  have hminus : ("-" ++ Nat.repr n).data = '-' :: Nat.toDigitsCore 10 (n + 1) n [] := by
    rw [String.data_append, hdata]; rfl
  rw [hminus, hdata]
  cases hl : Nat.toDigitsCore 10 (n + 1) n [] with
  | nil => exact absurd hl hne
  | cons c cs =>
    rw [hl] at hall hval
    have hc := isdigit_not_space c (hall c (List.mem_cons_self _ _))
    constructor
    · rw [List.dropWhile_cons_of_neg (by simp [hc.1])]
      simp only [signedValue, hc.2.1, hc.2.2, if_false, hval]
    · rw [List.dropWhile_cons_of_neg (by decide)]
      simp only [signedValue, if_true, hval]

theorem atoi_to_string (v : Int) (hlo : -2147483648 ≤ v) (hhi : v < 2147483648) :
    atoi (to_string v) = v := by
  unfold atoi to_string
  split
  · rw [(atoi_repr v.natAbs).2]
    have : clampLong (-(v.natAbs : Int)) = v := by unfold clampLong; omega
    rw [this, wrapInt32_of_range v hlo hhi]
  · rw [(atoi_repr v.natAbs).1]
    have : clampLong ((v.natAbs : Int)) = v := by unfold clampLong; omega
    rw [this, wrapInt32_of_range v hlo hhi]

theorem updateDynamicLaneProfile_entry (w : OptionWidget) (params : Params) (param : String) :
    ((w.updateDynamicLaneProfile params param).title,
        (w.updateDynamicLaneProfile params param).icon_color)
      = tableEntry laneProfileTable (atoi (params.get param)) := by
  unfold OptionWidget.updateDynamicLaneProfile tableEntry laneProfileTable
  by_cases h0 : atoi (params.get param) = 0
  · simp [h0, List.lookup]
  by_cases h1 : atoi (params.get param) = 1
  · simp [h1, List.lookup]
  by_cases h2 : atoi (params.get param) = 2
  · simp [h2, List.lookup]
  have e0 : (atoi (params.get param) == 0) = false := by simpa using h0
  have e1 : (atoi (params.get param) == 1) = false := by simpa using h1
  have e2 : (atoi (params.get param) == 2) = false := by simpa using h2
  simp [h0, h1, h2, List.lookup, e0, e1, e2]

theorem updateGapAdjustCruise_entry (w : OptionWidget) (params : Params) (param : String) :
    ((w.updateGapAdjustCruise params param).title,
        (w.updateGapAdjustCruise params param).icon_color)
      = tableEntry gapTable (atoi (params.get param)) := by
  unfold OptionWidget.updateGapAdjustCruise tableEntry gapTable
  by_cases h0 : atoi (params.get param) = 0
  · simp [h0, List.lookup]
  by_cases h1 : atoi (params.get param) = 1
  · simp [h1, List.lookup]
  by_cases h2 : atoi (params.get param) = 2
  · simp [h2, List.lookup]
  by_cases h3 : atoi (params.get param) = 3
  · simp [h3, List.lookup]
  have e0 : (atoi (params.get param) == 0) = false := by simpa using h0
  have e1 : (atoi (params.get param) == 1) = false := by simpa using h1
  have e2 : (atoi (params.get param) == 2) = false := by simpa using h2
  have e3 : (atoi (params.get param) == 3) = false := by simpa using h3
  simp [h0, h1, h2, h3, List.lookup, e0, e1, e2, e3]

theorem refresh_dlp_widget (s : Panel) (h : s.is_visible = true) :
    (refresh s).dlp_widget
      = (s.dlp_widget.updateDynamicLaneProfile s.params "DynamicLaneProfile").setVisible
          (s.params.getBool "DynamicLaneProfileToggle") := by
  simp [refresh, h]

theorem refresh_gac_widget (s : Panel) (h : s.is_visible = true) :
    (refresh s).gac_widget
      = (s.gac_widget.updateGapAdjustCruise s.params "LongitudinalPersonality").setVisible
          s.has_longitudinal_control := by
  simp [refresh, h]

theorem get_put_same (p : Params) (key value : String) : (p.put key value).get key = value := by
  simp [Params.get, Params.put]

/-- One permitted click on the lane-profile row, on a cached value in the domain. -/
theorem changeDynamicLaneProfile_step (s : Panel)
    (ht : s.scene.dynamic_lane_profile_toggle = true)
    (h0 : 0 ≤ s.scene.dynamic_lane_profile) (h2 : s.scene.dynamic_lane_profile ≤ 2) :
    (changeDynamicLaneProfile s).scene.dynamic_lane_profile
        = (s.scene.dynamic_lane_profile + 1) % 3
      ∧ (changeDynamicLaneProfile s).scene.dynamic_lane_profile_toggle = true := by
  unfold changeDynamicLaneProfile
  simp only [ht, if_true, refresh_scene]
  rw [wrapInt32_of_range _ (by omega) (by omega)]
  refine ⟨?_, trivial⟩
  split <;> omega

/-- One permitted click on the gap row, on a cached value in the domain. -/
theorem changeGapAdjustCruise_step (s : Panel)
    (hc : s.has_longitudinal_control = true)
    (h0 : 0 ≤ s.scene.longitudinal_personality) (h3 : s.scene.longitudinal_personality ≤ 3) :
    (changeGapAdjustCruise s).scene.longitudinal_personality
        = (s.scene.longitudinal_personality - 1) % 4
      ∧ (changeGapAdjustCruise s).has_longitudinal_control = true := by
  unfold changeGapAdjustCruise
  simp only [hc, if_true, refresh_scene, refresh_has_longitudinal_control]
  rw [wrapInt32_of_range _ (by omega) (by omega)]
  refine ⟨?_, trivial⟩
  split <;> omega

/-! ## Cycling the options -/

/-- C1: starting from a cached lane-profile value in 0..2 with the cached toggle flag
true, n consecutive calls of changeDynamicLaneProfile leave the cached value equal to
(v + n) mod 3, and the flag is still true after them. -/
theorem changeDynamicLaneProfile_iterate (s : Panel) (n : Nat)
    (ht : s.scene.dynamic_lane_profile_toggle = true)
    (h0 : 0 ≤ s.scene.dynamic_lane_profile) (h2 : s.scene.dynamic_lane_profile ≤ 2) :
    (changeDynamicLaneProfile^[n] s).scene.dynamic_lane_profile
        = (s.scene.dynamic_lane_profile + (n : Int)) % 3
      ∧ (changeDynamicLaneProfile^[n] s).scene.dynamic_lane_profile_toggle = true := by
  induction n with
  | zero =>
    refine ⟨?_, ht⟩
    simp only [Function.iterate_zero, id_eq]
    omega
  | succ k ih =>
    rw [Function.iterate_succ_apply']
    obtain ⟨hk, hkt⟩ := ih
    have step := changeDynamicLaneProfile_step (changeDynamicLaneProfile^[k] s) hkt
      (by rw [hk]; omega) (by rw [hk]; omega)
    refine ⟨?_, step.2⟩
    rw [step.1, hk]
    push_cast
    omega

/-- C1, at a concrete input: five clicks from the value 1 give (1 + 5) mod 3. -/
theorem changeDynamicLaneProfile_iterate_witness :
    (changeDynamicLaneProfile^[5] (samplePanel 1 0 true false false true emptyStore)).scene.dynamic_lane_profile
        = ((samplePanel 1 0 true false false true emptyStore).scene.dynamic_lane_profile
            + ((5 : Nat) : Int)) % 3
      ∧ (changeDynamicLaneProfile^[5] (samplePanel 1 0 true false false true emptyStore)).scene.dynamic_lane_profile_toggle
        = true :=
  changeDynamicLaneProfile_iterate (samplePanel 1 0 true false false true emptyStore) 5
    rfl (by decide) (by decide)

/-- C2: starting from a cached gap-personality value in 0..3 with longitudinal control
reported, n consecutive calls of changeGapAdjustCruise leave the cached value equal to
(v - n) mod 4, the result taken in 0..3, and longitudinal control is still reported
after them. -/
theorem changeGapAdjustCruise_iterate (s : Panel) (n : Nat)
    (hc : s.has_longitudinal_control = true)
    (h0 : 0 ≤ s.scene.longitudinal_personality) (h3 : s.scene.longitudinal_personality ≤ 3) :
    (changeGapAdjustCruise^[n] s).scene.longitudinal_personality
        = (s.scene.longitudinal_personality - (n : Int)) % 4
      ∧ 0 ≤ (changeGapAdjustCruise^[n] s).scene.longitudinal_personality
      ∧ (changeGapAdjustCruise^[n] s).scene.longitudinal_personality ≤ 3
      ∧ (changeGapAdjustCruise^[n] s).has_longitudinal_control = true := by
  induction n with
  | zero =>
    refine ⟨?_, ?_, ?_, hc⟩ <;> simp only [Function.iterate_zero, id_eq] <;> omega
  | succ k ih =>
    rw [Function.iterate_succ_apply']
    obtain ⟨hk, hk0, hk3, hkc⟩ := ih
    have step := changeGapAdjustCruise_step (changeGapAdjustCruise^[k] s) hkc hk0 hk3
    have hv : (changeGapAdjustCruise (changeGapAdjustCruise^[k] s)).scene.longitudinal_personality
        = (s.scene.longitudinal_personality - ((k + 1 : Nat) : Int)) % 4 := by
      rw [step.1, hk]
      push_cast
      omega
    refine ⟨hv, ?_, ?_, step.2⟩ <;> rw [hv] <;> omega

/-- C2, at a concrete input: one click from the value 0 gives 3. -/
theorem changeGapAdjustCruise_iterate_witness :
    (changeGapAdjustCruise^[1] (samplePanel 0 0 false true false true emptyStore)).scene.longitudinal_personality
        = 3 := by
  have h := (changeGapAdjustCruise_iterate (samplePanel 0 0 false true false true emptyStore) 1
    rfl (by decide) (by decide)).1
  rw [h]
  decide

/-- C3: one call of changeSpeedLimitControl always negates the cached flag and writes
the encoding of the negated flag; two consecutive calls restore the cached flag, and
the store then holds the original store with the encoding of the original flag under
"SpeedLimitControl". -/
theorem changeSpeedLimitControl_twice (s : Panel) :
    (changeSpeedLimitControl s).scene.speed_limit_control_enabled
        = !s.scene.speed_limit_control_enabled
      ∧ (changeSpeedLimitControl s).params
        = s.params.putBool "SpeedLimitControl" (!s.scene.speed_limit_control_enabled)
      ∧ (changeSpeedLimitControl (changeSpeedLimitControl s)).scene.speed_limit_control_enabled
        = s.scene.speed_limit_control_enabled
      ∧ (changeSpeedLimitControl (changeSpeedLimitControl s)).params
        = s.params.putBool "SpeedLimitControl" s.scene.speed_limit_control_enabled
      ∧ (changeSpeedLimitControl (changeSpeedLimitControl s)).params.get "SpeedLimitControl"
        = (if s.scene.speed_limit_control_enabled then "1" else "0")
      ∧ (changeSpeedLimitControl (changeSpeedLimitControl s)).params.getBool "SpeedLimitControl"
        = s.scene.speed_limit_control_enabled := by
  have h1 : ∀ t : Panel, (changeSpeedLimitControl t).scene.speed_limit_control_enabled
      = !t.scene.speed_limit_control_enabled := by
    intro t
    simp [changeSpeedLimitControl, refresh_scene]
  have h2 : ∀ t : Panel, (changeSpeedLimitControl t).params
      = t.params.putBool "SpeedLimitControl" (!t.scene.speed_limit_control_enabled) := by
    intro t
    simp [changeSpeedLimitControl, refresh_params]
  have h3 : (changeSpeedLimitControl (changeSpeedLimitControl s)).params
      = s.params.putBool "SpeedLimitControl" s.scene.speed_limit_control_enabled := by
    rw [h2, h1, h2]
    funext k
    simp only [Params.putBool, Params.put, Bool.not_not]
    split <;> rfl
  refine ⟨h1 s, h2 s, ?_, h3, ?_, ?_⟩
  · rw [h1, h1, Bool.not_not]
  · rw [h3]
    simp [Params.putBool, Params.put, Params.get]
  · rw [h3]
    cases s.scene.speed_limit_control_enabled <;>
      simp [Params.putBool, Params.put, Params.get, Params.getBool]

/-! ## Disallowed clicks -/

/-- C4: when no longitudinal control is reported, changeGapAdjustCruise does exactly
what refresh does, and leaves the cached gap value and the whole store unchanged; when
the cached toggle flag is false, changeDynamicLaneProfile does exactly what refresh
does, and leaves the cached lane-profile value and the whole store unchanged. -/
theorem disallowed_click_only_refreshes (s : Panel) :
    (s.has_longitudinal_control = false →
        changeGapAdjustCruise s = refresh s
          ∧ (changeGapAdjustCruise s).scene.longitudinal_personality
              = s.scene.longitudinal_personality
          ∧ (changeGapAdjustCruise s).params = s.params
          ∧ (changeGapAdjustCruise s).params.get "LongitudinalPersonality"
              = s.params.get "LongitudinalPersonality")
      ∧ (s.scene.dynamic_lane_profile_toggle = false →
        changeDynamicLaneProfile s = refresh s
          ∧ (changeDynamicLaneProfile s).scene.dynamic_lane_profile
              = s.scene.dynamic_lane_profile
          ∧ (changeDynamicLaneProfile s).params = s.params) := by
  constructor
  · intro h
    have e : changeGapAdjustCruise s = refresh s := by
      simp [changeGapAdjustCruise, h]
    rw [e, refresh_scene, refresh_params]
    exact ⟨rfl, rfl, rfl, rfl⟩
  · intro h
    have e : changeDynamicLaneProfile s = refresh s := by
      simp [changeDynamicLaneProfile, h]
    rw [e, refresh_scene, refresh_params]
    exact ⟨rfl, rfl, rfl⟩

/-- C4, at a concrete input: a shown panel with neither capability, the store holding
"2" under every key. -/
theorem disallowed_click_only_refreshes_witness :
    (changeGapAdjustCruise (samplePanel 1 2 false false false true (fun _ => "2"))
        = refresh (samplePanel 1 2 false false false true (fun _ => "2"))
      ∧ (changeGapAdjustCruise (samplePanel 1 2 false false false true (fun _ => "2"))).scene.longitudinal_personality
        = 2)
    ∧ (changeDynamicLaneProfile (samplePanel 1 2 false false false true (fun _ => "2"))
        = refresh (samplePanel 1 2 false false false true (fun _ => "2"))
      ∧ (changeDynamicLaneProfile (samplePanel 1 2 false false false true (fun _ => "2"))).scene.dynamic_lane_profile
        = 1) :=
  ⟨⟨((disallowed_click_only_refreshes
        (samplePanel 1 2 false false false true (fun _ => "2"))).1 rfl).1,
    ((disallowed_click_only_refreshes
        (samplePanel 1 2 false false false true (fun _ => "2"))).1 rfl).2.1⟩,
   ⟨((disallowed_click_only_refreshes
        (samplePanel 1 2 false false false true (fun _ => "2"))).2 rfl).1,
    ((disallowed_click_only_refreshes
        (samplePanel 1 2 false false false true (fun _ => "2"))).2 rfl).2.1⟩⟩

/-! ## Values outside the domain -/

/-- C8: after refresh on a shown panel the lane-profile row is visible exactly when the
store reads true under "DynamicLaneProfileToggle", the gap row exactly when longitudinal
control is reported, and the speed-limit row is visible; replacing the scene and the
three stored option values by any others changes none of the three. -/
theorem refresh_visibility (s : Panel) (hshown : s.is_visible = true) :
    ((refresh s).dlp_widget.visible = true ↔ s.params.getBool "DynamicLaneProfileToggle" = true)
      ∧ ((refresh s).gac_widget.visible = true ↔ s.has_longitudinal_control = true)
      ∧ (refresh s).slc_widget.visible = true
      ∧ ∀ (sc : UIScene) (a b c : String),
          (refresh { s with scene := sc, params := ((s.params.put "DynamicLaneProfile" a).put
              "LongitudinalPersonality" b).put "SpeedLimitControl" c }).dlp_widget.visible
            = (refresh s).dlp_widget.visible
          ∧ (refresh { s with scene := sc, params := ((s.params.put "DynamicLaneProfile" a).put
              "LongitudinalPersonality" b).put "SpeedLimitControl" c }).gac_widget.visible
            = (refresh s).gac_widget.visible
          ∧ (refresh { s with scene := sc, params := ((s.params.put "DynamicLaneProfile" a).put
              "LongitudinalPersonality" b).put "SpeedLimitControl" c }).slc_widget.visible
            = (refresh s).slc_widget.visible := by
  refine ⟨?_, ?_, ?_, ?_⟩
  · simp [refresh, hshown, OptionWidget.setVisible]
  · simp [refresh, hshown, OptionWidget.setVisible]
  · simp [refresh, hshown, OptionWidget.setVisible]
  · intro sc a b c
    have h1 : ("DynamicLaneProfileToggle" : String) ≠ "DynamicLaneProfile" := by decide
    have h2 : ("DynamicLaneProfileToggle" : String) ≠ "LongitudinalPersonality" := by decide
    have h3 : ("DynamicLaneProfileToggle" : String) ≠ "SpeedLimitControl" := by decide
    simp [refresh, hshown, OptionWidget.setVisible, Params.getBool, Params.get, Params.put,
      h1, h2, h3]

/-- C8, at a concrete input: a shown panel with longitudinal control, the store holding
"1" under every key. -/
theorem refresh_visibility_witness :
    (refresh (samplePanel 0 0 false true false true (fun _ => "1"))).dlp_widget.visible = true
      ∧ (refresh (samplePanel 0 0 false true false true (fun _ => "1"))).gac_widget.visible = true
      ∧ (refresh (samplePanel 0 0 false true false true (fun _ => "1"))).slc_widget.visible = true :=
  ⟨(refresh_visibility (samplePanel 0 0 false true false true (fun _ => "1")) rfl).1.2 (by decide),
   (refresh_visibility (samplePanel 0 0 false true false true (fun _ => "1")) rfl).2.1.2 rfl,
   (refresh_visibility (samplePanel 0 0 false true false true (fun _ => "1")) rfl).2.2.1⟩

/-- C10: refresh leaves the whole store and the cached scene values unchanged, and a
second consecutive call changes nothing at all: the state after two calls, and with it
the title, subtitle, icon colour and visibility of the three rows, is the state after
one call. -/
theorem refresh_idempotent (s : Panel) :
    (refresh s).params = s.params
      ∧ (refresh s).scene = s.scene
      ∧ refresh (refresh s) = refresh s
      ∧ (refresh (refresh s)).dlp_widget = (refresh s).dlp_widget
      ∧ (refresh (refresh s)).gac_widget = (refresh s).gac_widget
      ∧ (refresh (refresh s)).slc_widget = (refresh s).slc_widget := by
  have idem : refresh (refresh s) = refresh s := by
    cases h : s.is_visible
    · simp [refresh, h, addParam_four_idem]
    · simp [refresh, h, addParam_four_idem, OptionWidget.updateDynamicLaneProfile,
        OptionWidget.updateGapAdjustCruise, OptionWidget.updateSpeedLimitControl,
        OptionWidget.setVisible]
  exact ⟨refresh_params s, refresh_scene s, idem, by rw [idem], by rw [idem], by rw [idem]⟩

/-! ## Display -/

/-- C5: on a shown panel, after a permitted click on the lane-profile row (on the gap
row) with the cached value in 0..2 (in 0..3), whatever the store held before, the store
holds the decimal string of the new cached value under "DynamicLaneProfile" (under
"LongitudinalPersonality"), and the title and icon colour of the row when the handler
returns are the table entry of the new cached value. -/
theorem click_writes_through_before_refresh (s : Panel) (hshown : s.is_visible = true) :
    (s.scene.dynamic_lane_profile_toggle = true →
      0 ≤ s.scene.dynamic_lane_profile → s.scene.dynamic_lane_profile ≤ 2 →
        (changeDynamicLaneProfile s).params.get "DynamicLaneProfile"
            = to_string (changeDynamicLaneProfile s).scene.dynamic_lane_profile
          ∧ ((changeDynamicLaneProfile s).dlp_widget.title,
              (changeDynamicLaneProfile s).dlp_widget.icon_color)
            = tableEntry laneProfileTable (changeDynamicLaneProfile s).scene.dynamic_lane_profile)
      ∧ (s.has_longitudinal_control = true →
      0 ≤ s.scene.longitudinal_personality → s.scene.longitudinal_personality ≤ 3 →
        (changeGapAdjustCruise s).params.get "LongitudinalPersonality"
            = to_string (changeGapAdjustCruise s).scene.longitudinal_personality
          ∧ ((changeGapAdjustCruise s).gac_widget.title,
              (changeGapAdjustCruise s).gac_widget.icon_color)
            = tableEntry gapTable (changeGapAdjustCruise s).scene.longitudinal_personality) := by
  constructor
  · intro ht h0 h2
    unfold changeDynamicLaneProfile
    simp only [ht, if_true, refresh_scene, refresh_params]
    rw [wrapInt32_of_range _ (by omega) (by omega)]
    refine ⟨get_put_same _ _ _, ?_⟩
    rw [refresh_dlp_widget]
    · simp only [OptionWidget.setVisible]
      rw [updateDynamicLaneProfile_entry, get_put_same, atoi_to_string]
      · split <;> omega
      · split <;> omega
    · exact hshown
  · intro hc h0 h3
    unfold changeGapAdjustCruise
    simp only [hc, if_true, refresh_scene, refresh_params]
    rw [wrapInt32_of_range _ (by omega) (by omega)]
    refine ⟨get_put_same _ _ _, ?_⟩
    rw [refresh_gac_widget]
    · simp only [OptionWidget.setVisible]
      rw [updateGapAdjustCruise_entry, get_put_same, atoi_to_string]
      · split <;> omega
      · split <;> omega
    · exact hshown

/-- C5, at a concrete input: the store holds "1" under every key, the cached lane-profile
value is 2 and the cached gap value is 0; the rows show the entries of 0 and of 3. -/
theorem click_writes_through_before_refresh_witness :
    ((changeDynamicLaneProfile (samplePanel 2 0 true true false true (fun _ => "1"))).dlp_widget.title,
        (changeDynamicLaneProfile (samplePanel 2 0 true true false true (fun _ => "1"))).dlp_widget.icon_color)
      = tableEntry laneProfileTable
          (changeDynamicLaneProfile (samplePanel 2 0 true true false true (fun _ => "1"))).scene.dynamic_lane_profile
    ∧ ((changeGapAdjustCruise (samplePanel 2 0 true true false true (fun _ => "1"))).gac_widget.title,
        (changeGapAdjustCruise (samplePanel 2 0 true true false true (fun _ => "1"))).gac_widget.icon_color)
      = tableEntry gapTable
          (changeGapAdjustCruise (samplePanel 2 0 true true false true (fun _ => "1"))).scene.longitudinal_personality :=
  ⟨((click_writes_through_before_refresh
        (samplePanel 2 0 true true false true (fun _ => "1")) rfl).1
        rfl (by decide) (by decide)).2,
   ((click_writes_through_before_refresh
        (samplePanel 2 0 true true false true (fun _ => "1")) rfl).2
        rfl (by decide) (by decide)).2⟩

end OnroadSettings
